import Mathlib

/-!
Shallow embedding of `src/tmi/misc_utils.py` (package `tmi`) and proofs
about its validation helpers `create_invalid_data_str`, `verify_in_list`,
`verify_same_elements`, and the figure-save wrapper `save_figure`.

The values that flow through these helpers are modelled by `PyScalar`
(atomic comparable values: strings and integers, as in every use the
package's tests and spec exercise) and `PyVal` (a scalar or a list of
scalars); Python exceptions by `PyError`.  Keyword-argument mappings
(`**kwargs`) are modelled as ordered association lists
`List (String × PyVal)`, matching Python's insertion-ordered kwargs.
Console output on the success paths is modelled by the `Except`'s `.ok`
payload; raised exceptions by `.error`.
-/

set_option maxRecDepth 100000

namespace tmi

/-- An atomic element value: a Python string or integer. -/
inductive PyScalar : Type where
  | pyStr (s : String)
  | pyInt (n : Int)
deriving DecidableEq, Repr

/-- A Python argument value reaching the helpers: a scalar or a list. -/
inductive PyVal : Type where
  | scalar (v : PyScalar)
  | pyList (xs : List PyScalar)
deriving DecidableEq, Repr

/-- A low-level Python exception that the code under study may catch or
re-raise: here only `TypeError` (from iterating / converting a
non-iterable, or an unsupported `in`). -/
inductive PyBase : Type where
  | typeError (msg : String)
deriving DecidableEq, Repr

/-- Python exceptions raised by the code under study.  `valueError` carries
the message and the optional chained cause (`raise ... from e`). -/
inductive PyError : Type where
  | base (e : PyBase)
  | nameError (missingName : String)
  | fileNotFoundError (msg : String)
  | valueError (msg : String) (cause : Option PyBase)
deriving DecidableEq, Repr

/-- Python `str` of a scalar, as used by the comprehensions `str(val)`. -/
def pyStrOf : PyScalar → String
  | .pyStr s => s
  | .pyInt n => toString n

/-- Python `list(v)` / iteration: lists iterate their elements, strings
iterate their characters (as one-character strings), integers raise
`TypeError`. -/
def pyIterE : PyVal → Except PyBase (List PyScalar)
  | .pyList xs => .ok xs
  | .scalar (.pyStr s) => .ok (s.data.map (fun c => PyScalar.pyStr (String.mk [c])))
  | .scalar (.pyInt _) => .error (.typeError "'int' object is not iterable")

/-- Substring test on character lists (Python `needle in haystack` for
strings; the empty needle is contained in everything). -/
def charsContain (hay needle : List Char) : Bool :=
  match hay with
  | [] => needle.isEmpty
  | _ :: t => needle.isPrefixOf hay || charsContain t needle

/-- Python `x in c` for the containers that can appear here: list containers
test element equality, string containers test substring (and require a
string operand), integer containers raise `TypeError`. -/
def pyInB (x : PyScalar) (c : PyVal) : Except PyBase Bool :=
  match c with
  | .pyList xs => .ok (decide (x ∈ xs))
  | .scalar (.pyStr s) =>
    match x with
    | .pyStr t => .ok (charsContain s.data t.data)
    | _ => .error (.typeError "'in <string>' requires string as left operand")
  | .scalar (.pyInt _) => .error (.typeError "argument of type 'int' is not iterable")

/-- `numpy.atleast_1d`-style view used by `np.isin`: a list is its elements,
a scalar (string or int) is a one-element array. -/
def npAtleast1d : PyVal → List PyScalar
  | .pyList xs => xs
  | .scalar v => [v]

/-- `np.isin(test_list, good_values).all()`: every element of the test
array is equal to some element of the reference array.  A bare string or
int is an atomic scalar element for numpy. -/
def npIsinAll (test good : PyVal) : Bool :=
  (npAtleast1d test).all (fun x => decide (x ∈ npAtleast1d good))

/-- Python `name.replace("_", " ")` for the one-character pattern used by
the checkers: every underscore becomes a space. -/
def displayName (s : String) : String :=
  String.mk (s.data.map (fun c => if c = '_' then ' ' else c))

/-- Python format `"{:<w}"`: left-align, padding with spaces on the right
(no padding once the text reaches the width). -/
def padRightTo (s : String) (w : Nat) : String :=
  s ++ String.mk (List.replicate (w - s.length) ' ')

/-- Python format `"{:>w}"`: right-align, padding with spaces on the left. -/
def padLeftTo (s : String) (w : Nat) : String :=
  String.mk (List.replicate (w - s.length) ' ') ++ s

/-- `misc_utils.create_invalid_data_str`: renders the first 10 entries,
each as the 1-based index formatted `"{idx: <12}"` (left-aligned to width
12), a space, the value, and a newline, accumulated in order. -/
def create_invalid_data_str (invalid_data : List String) : String :=
  ((invalid_data.take 10).enumFrom 1).foldl
    (fun err_str_data p =>
      err_str_data ++ (padRightTo (toString p.1) 12 ++ " " ++ p.2 ++ "\n"))
    ""

/-- Run a Python list-comprehension filter whose test may raise: keeps the
elements whose test returns `true`, propagating the first raised error. -/
def filterExcept (p : PyScalar → Except PyBase Bool) :
    List PyScalar → Except PyBase (List PyScalar)
  | [] => .ok []
  | x :: xs =>
    match p x with
    | .error e => .error e
    | .ok b =>
      match filterExcept p xs with
      | .error e => .error e
      | .ok r => .ok (if b then x :: r else r)

/-- `misc_utils.verify_in_list(**kwargs)`.  Exactly two named arguments are
required; the first collection is tested for membership in the second via
`np.isin(...).all()`.  On failure the offending values are the iterated
elements of the candidate that are `not in` the reference, stringified,
and a `ValueError` carries the count line plus the formatted block.  On
the success path the names `test_list_name` / `good_values_name` used by
the confirmation `print` were only ever bound in the failure branch, so
reaching the `print` raises `NameError` on `test_list_name`. -/
def verify_in_list (kwargs : List (String × PyVal)) : Except PyError String :=
  match kwargs with
  | [(test_list_key, test_list), (_good_values_key, good_values)] =>
    if npIsinAll test_list good_values then
      .error (.nameError "test_list_name")
    else
      let test_list_name := displayName test_list_key
      match pyIterE test_list with
      | .error e => .error (.base e)
      | .ok elems =>
        match filterExcept (fun v => Except.map (fun b => !b) (pyInB v good_values)) elems with
        | .error e => .error (.base e)
        | .ok diffVals =>
          let difference := diffVals.map pyStrOf
          let err_str :=
            "Displaying " ++ toString (min difference.length 10) ++ " of "
              ++ toString difference.length
              ++ " invalid value(s) provided for list " ++ test_list_name ++ ".\n"
              ++ create_invalid_data_str difference
          .error (.valueError err_str none)
  | _ => .error (.valueError "You must provide 2 arguments to verify_in_list" none)

/-- Python `set(xs)` determinised as the list of distinct elements in first
occurrence order (membership and cardinality agree with the Python set). -/
def pySetList (xs : List PyScalar) : List PyScalar :=
  xs.foldl (fun acc x => if x ∈ acc then acc else acc ++ [x]) []

/-- Python `set(a) - set(b)`. -/
def pySetDiff (a b : List PyScalar) : List PyScalar :=
  (pySetList a).filter (fun x => !decide (x ∈ pySetList b))

/-- Python `set(a) ^ set(b)` (symmetric difference; only its size is used). -/
def pySymmDiff (a b : List PyScalar) : List PyScalar :=
  pySetDiff a b ++ pySetDiff b a

/-- Python `set(a) == set(b)` (extensional equality of the two sets). -/
def pySetEqB (a b : List PyScalar) : Bool :=
  (pySetList a).all (fun x => decide (x ∈ pySetList b))
    && (pySetList b).all (fun x => decide (x ∈ pySetList a))

/-- One direction's report block in `verify_same_elements`'s error: the
source's `err_str += ("{:>13} \n").format("Displaying {} of {} missing
value(s) for list {}\n".format(shown, total, name))` followed by
`err_str += create_invalid_data_str(vals) + "\n"`. -/
def missingSection (shown total : Nat) (name : String) (vals : List String) : String :=
  padLeftTo ("Displaying " ++ toString shown ++ " of " ++ toString total
      ++ " missing value(s) for list " ++ name ++ "\n") 13 ++ " \n"
    ++ create_invalid_data_str vals ++ "\n"

/-- `misc_utils.verify_same_elements(**kwargs)`.  Exactly two named
arguments are required; both are cast with `list(...)`, a `TypeError`
being re-raised as `ValueError("Both arguments provided must be lists or
list types") from e`; the check succeeds iff the two casts have equal
sets of distinct elements.  On failure the error reports the symmetric
difference's size and, for each direction, a count line (whose total is
`len(missing_vals_2)` in BOTH lines, exactly as in the source) plus the
formatted block.  On the success path the names `list_one_name` /
`list_two_name` used by the confirmation `print` were only ever bound in
the failure branch, so reaching the `print` raises `NameError` on
`list_one_name`. -/
def verify_same_elements (kwargs : List (String × PyVal)) : Except PyError String :=
  match kwargs with
  | [(key_one, list_one), (key_two, list_two)] =>
    match pyIterE list_one with
    | .error e => .error (.valueError "Both arguments provided must be lists or list types" (some e))
    | .ok list_one_cast =>
      match pyIterE list_two with
      | .error e => .error (.valueError "Both arguments provided must be lists or list types" (some e))
      | .ok list_two_cast =>
        if pySetEqB list_one_cast list_two_cast then
          .error (.nameError "list_one_name")
        else
          let list_one_name := displayName key_one
          let list_two_name := displayName key_two
          let missing_vals_1 := (pySetDiff list_one_cast list_two_cast).map pyStrOf
          let missing_vals_2 := (pySetDiff list_two_cast list_one_cast).map pyStrOf
          let missing_vals_total := (pySymmDiff list_one_cast list_two_cast).map pyStrOf
          let err_str :=
            toString missing_vals_total.length ++ " value(s) provided for list "
              ++ list_one_name ++ " and list " ++ list_two_name
              ++ " are not found in both lists.\n"
              ++ missingSection (min missing_vals_1.length 10) missing_vals_2.length
                  list_one_name missing_vals_1
              ++ missingSection (min missing_vals_2.length 10) missing_vals_2.length
                  list_two_name missing_vals_2
          .error (.valueError err_str none)
  | _ => .error (.valueError "You must provide 2 arguments to verify_same_elements" none)

/-- Python `os.path.join(a, b)` for POSIX paths as used by `save_figure`. -/
def os_path_join (a b : String) : String :=
  if b.data.head? = some '/' then b
  else if a = "" || a.data.getLast? = some '/' then a ++ b
  else a ++ "/" ++ b

/-- `misc_utils.save_figure(save_dir, save_file, dpi)`.  The filesystem is
abstracted as the predicate `path_exists` (`os.path.exists`); a `None`
file name is modelled as `Option.none`.  The `plt.savefig` call on the
joined path is the `.ok` payload (the resolution argument is passed
through to the plotting library untouched and is omitted here). -/
def save_figure (path_exists : String → Bool) (save_dir : String)
    (save_file : Option String) : Except PyError String :=
  if !path_exists save_dir then
    .error (.fileNotFoundError ("save_dir " ++ save_dir ++ " does not exist"))
  else
    match save_file with
    | none => .error (.fileNotFoundError "save_dir specified but no save_file specified")
    | some f => .ok (os_path_join save_dir f)

/-- Claim-side rendering of the formatter's output: one line per entry of
the form index (left-aligned, i.e. padded on the right to width 12),
space, value, newline. -/
def renderLines : Nat → List String → String
  | _, [] => ""
  | idx, d :: rest =>
    padRightTo (toString idx) 12 ++ " " ++ d ++ "\n" ++ renderLines (idx + 1) rest

/-- Rendering following the claim's words literally, with the index
LEFT-PADDED (right-aligned) to width 12. -/
def renderLinesLeftPad : Nat → List String → String
  | _, [] => ""
  | idx, d :: rest =>
    padLeftTo (toString idx) 12 ++ " " ++ d ++ "\n" ++ renderLinesLeftPad (idx + 1) rest

/-- The elements Python iteration yields from a string: its characters as
one-character strings. -/
def stringChars (s : String) : List PyScalar :=
  s.data.map (fun c => PyScalar.pyStr (String.mk [c]))

theorem foldl_enumFrom_renderLines (l : List String) (i : Nat) (acc : String) :
    (l.enumFrom i).foldl
      (fun err_str_data p =>
        err_str_data ++ (padRightTo (toString p.1) 12 ++ " " ++ p.2 ++ "\n"))
      acc = acc ++ renderLines i l := by
  induction l generalizing i acc with
  | nil => simp [renderLines, String.append_empty]
  | cons d rest ih =>
    show (List.foldl _ _ (List.enumFrom (i + 1) rest)) = _
    rw [ih, renderLines]
    rw [String.append_assoc, String.append_assoc, String.append_assoc, String.append_assoc]

theorem filterExcept_pyList (ys : List PyScalar) (xs : List PyScalar) :
    filterExcept (fun v => Except.map (fun b => !b) (pyInB v (.pyList ys))) xs
      = .ok (xs.filter (fun v => !decide (v ∈ ys))) := by
  induction xs with
  | nil => rfl
  | cons x xs ih =>
    rw [filterExcept, ih]
    simp only [pyInB, Except.map, List.filter_cons]

/-- Claim C1: the set-equality decision of `verify_same_elements` is as
specified (here `["a"]` and `["a", "a"]` have equal distinct-element sets,
so the success branch is reached), but on success the code does NOT emit a
confirmation and return: the display names used by the confirmation are
bound only in the failure branch, so the success path raises
`NameError("list_one_name")`. -/
theorem verify_same_elements_success_raises_name_error :
    verify_same_elements
        [("list_one", .pyList [.pyStr "a"]), ("list_two", .pyList [.pyStr "a", .pyStr "a"])]
      = .error (.nameError "list_one_name") := by rfl

/-- Claim C2: with every element of the candidate present in the reference
(`["x"] ⊆ ["x", "y"]`) `verify_in_list` reaches its success branch, but
instead of printing the confirmation and returning it raises
`NameError("test_list_name")`: the display names are bound only in the
failure branch. -/
theorem verify_in_list_success_raises_name_error :
    verify_in_list [("a", .pyList [.pyStr "x"]), ("b", .pyList [.pyStr "x", .pyStr "y"])]
      = .error (.nameError "test_list_name") := by rfl

/-- Claim C4: for `list_one = ["a", "b"]`, `list_two = ["a"]` the A−B
direction has 1 missing value and the B−A direction 0, yet the code's
first count line reads "Displaying 1 of 0 missing value(s) for list list
one": the total it prints is `len(missing_vals_2)` (the OTHER direction's
count), not this direction's total as the claim requires. -/
theorem verify_same_elements_count_line_mismatch :
    verify_same_elements
        [("list_one", .pyList [.pyStr "a", .pyStr "b"]), ("list_two", .pyList [.pyStr "a"])]
      = .error (.valueError
          ("1 value(s) provided for list list one and list list two are not found in both lists.\nDisplaying 1 of 0 missing value(s) for list list one\n \n1            b\n\nDisplaying 0 of 0 missing value(s) for list list two\n \n\n")
          none) := by rfl

/-- Claim C5 (counterexample): the formatter does not left-pad the index to
width 12 as the claim states; at input `["x"]` its output
`"1            x\n"` differs from the left-padded rendering
`"           1 x\n"`. -/
theorem create_invalid_data_str_not_left_padded :
    create_invalid_data_str ["x"] ≠ renderLinesLeftPad 1 (List.take 10 ["x"]) := by decide

/-- Claim C5 (amended): the formatter returns the concatenation, over the
first `min(length, 10)` entries, of one line per entry of the form
"<1-based index, left-aligned (right-padded with spaces) to width
12><space><value>\n"; entries beyond the 10th are omitted, fewer than 10
are all rendered, and the empty input yields the empty string. -/
theorem create_invalid_data_str_renders_left_aligned (l : List String) :
    create_invalid_data_str l = renderLines 1 (l.take 10) := by
  unfold create_invalid_data_str
  rw [foldl_enumFrom_renderLines, String.empty_append]

/-- Claim C9 (counterexample): with an existing directory and the empty
string as file name, `save_figure` does not raise: it goes on to write to
the joined path, so an empty file name is NOT rejected. -/
theorem save_figure_empty_name_not_rejected :
    save_figure (fun _ => true) "figs" (some "") = .ok "figs/"
      ∧ ¬∃ e, save_figure (fun _ => true) "figs" (some "") = .error e := by
  refine ⟨rfl, ?_⟩
  rintro ⟨e, he⟩
  exact Except.noConfusion he

/-- Claim C3: when at least one candidate element is absent from the
reference, `verify_in_list` raises a `ValueError` whose message shows
`min(total, 10)` of the total count of offending values and the candidate
parameter's display name, followed by the formatter's rendering of the
offending values in their original order (a filter of the candidate, so
without deduplication), the formatter capping display to the first 10. -/
theorem verify_in_list_failure_message (tn gn : String) (xs ys : List PyScalar)
    (h : ∃ x ∈ xs, x ∉ ys) :
    verify_in_list [(tn, .pyList xs), (gn, .pyList ys)] =
      .error (.valueError
        ("Displaying "
          ++ toString (min ((xs.filter (fun v => !decide (v ∈ ys))).map pyStrOf).length 10)
          ++ " of " ++ toString ((xs.filter (fun v => !decide (v ∈ ys))).map pyStrOf).length
          ++ " invalid value(s) provided for list " ++ displayName tn ++ ".\n"
          ++ create_invalid_data_str ((xs.filter (fun v => !decide (v ∈ ys))).map pyStrOf))
        none) := by
  have hall : npIsinAll (.pyList xs) (.pyList ys) = false := by
    rcases h with ⟨x, hx, hnx⟩
    cases hb : npIsinAll (.pyList xs) (.pyList ys)
    · rfl
    · exfalso
      simp only [npIsinAll, npAtleast1d, List.all_eq_true] at hb
      exact hnx (by simpa using hb x hx)
  simp only [verify_in_list, hall, Bool.false_eq_true, if_false, pyIterE, filterExcept_pyList]

/-- Claim C3 witness at `one = ["hello", "world"]`,
`two = ["hello", "goodbye"]`. -/
theorem verify_in_list_failure_message_witness :
    (∃ x ∈ [PyScalar.pyStr "hello", PyScalar.pyStr "world"],
        x ∉ [PyScalar.pyStr "hello", PyScalar.pyStr "goodbye"])
    ∧ verify_in_list
        [("one", .pyList [.pyStr "hello", .pyStr "world"]),
          ("two", .pyList [.pyStr "hello", .pyStr "goodbye"])] =
      .error (.valueError
        ("Displaying "
          ++ toString (min ((([PyScalar.pyStr "hello", PyScalar.pyStr "world"].filter
              (fun v => !decide (v ∈ [PyScalar.pyStr "hello", PyScalar.pyStr "goodbye"]))).map
                pyStrOf).length) 10)
          ++ " of "
          ++ toString ((([PyScalar.pyStr "hello", PyScalar.pyStr "world"].filter
              (fun v => !decide (v ∈ [PyScalar.pyStr "hello", PyScalar.pyStr "goodbye"]))).map
                pyStrOf).length)
          ++ " invalid value(s) provided for list " ++ displayName "one" ++ ".\n"
          ++ create_invalid_data_str (([PyScalar.pyStr "hello", PyScalar.pyStr "world"].filter
              (fun v => !decide (v ∈ [PyScalar.pyStr "hello", PyScalar.pyStr "goodbye"]))).map
                pyStrOf))
        none) :=
  ⟨by decide,
    verify_in_list_failure_message "one" "two"
      [PyScalar.pyStr "hello", PyScalar.pyStr "world"]
      [PyScalar.pyStr "hello", PyScalar.pyStr "goodbye"] (by decide)⟩

/-- Claim C6: whenever the number of named arguments differs from two,
both checkers raise the "You must provide 2 arguments" usage error,
whatever the arguments hold. -/
theorem checkers_arity_error :
    ∀ (kwargs : List (String × PyVal)), kwargs.length ≠ 2 →
      verify_in_list kwargs =
          .error (.valueError "You must provide 2 arguments to verify_in_list" none)
        ∧ verify_same_elements kwargs =
          .error (.valueError "You must provide 2 arguments to verify_same_elements" none)
  | [], _ => ⟨rfl, rfl⟩
  | [_], _ => ⟨rfl, rfl⟩
  | [_, _], h => absurd rfl h
  | _ :: _ :: _ :: _, _ => ⟨rfl, rfl⟩

/-- Claim C6 witness at one single named argument. -/
theorem checkers_arity_error_witness :
    ([("one", PyVal.pyList [])] : List (String × PyVal)).length ≠ 2
    ∧ (verify_in_list [("one", PyVal.pyList [])] =
          .error (.valueError "You must provide 2 arguments to verify_in_list" none)
        ∧ verify_same_elements [("one", PyVal.pyList [])] =
          .error (.valueError "You must provide 2 arguments to verify_same_elements" none)) :=
  ⟨by decide, checkers_arity_error [("one", PyVal.pyList [])] (by decide)⟩

/-- Claim C7: if either input of `verify_same_elements` cannot be
converted to a sequence, the call raises the "Both arguments provided
must be lists or list types" usage error with the underlying conversion
`TypeError` chained as its cause — while for convertible inputs with
unequal sets the validation error carries no cause (so the two errors are
distinct), and the usage error does not depend on any equality
comparison. -/
theorem verify_same_elements_conversion_usage_error (n1 n2 : String) (v1 v2 : PyVal)
    (h : (∃ e, pyIterE v1 = .error e) ∨ (∃ e, pyIterE v2 = .error e)) :
    (∃ c, verify_same_elements [(n1, v1), (n2, v2)] =
        .error (.valueError "Both arguments provided must be lists or list types" (some c))
      ∧ (pyIterE v1 = .error c ∨ pyIterE v2 = .error c))
    ∧ ∀ (w1 w2 : PyVal) (u1 u2 : List PyScalar),
        pyIterE w1 = .ok u1 → pyIterE w2 = .ok u2 → pySetEqB u1 u2 = false →
        ∃ m, verify_same_elements [(n1, w1), (n2, w2)] = .error (.valueError m none) := by
  constructor
  · cases he1 : pyIterE v1 with
    | error e =>
      refine ⟨e, ?_, Or.inl rfl⟩
      simp [verify_same_elements, he1]
    | ok l1 =>
      rcases h with ⟨e, he⟩ | ⟨e, he⟩
      · rw [he1] at he; exact Except.noConfusion he
      · refine ⟨e, ?_, Or.inr he⟩
        simp [verify_same_elements, he1, he]
  · intro w1 w2 u1 u2 h1 h2 hne
    simp only [verify_same_elements, h1, h2, hne, Bool.false_eq_true, if_false]
    exact ⟨_, rfl⟩

/-- Claim C7 witness at the non-iterable scalars `one = 1`, `two = 2`. -/
theorem verify_same_elements_conversion_usage_error_witness :
    ((∃ e, pyIterE (.scalar (.pyInt 1)) = .error e)
      ∨ (∃ e, pyIterE (.scalar (.pyInt 2)) = .error e))
    ∧ ((∃ c, verify_same_elements [("one", .scalar (.pyInt 1)), ("two", .scalar (.pyInt 2))] =
          .error (.valueError "Both arguments provided must be lists or list types" (some c))
        ∧ (pyIterE (.scalar (.pyInt 1)) = .error c ∨ pyIterE (.scalar (.pyInt 2)) = .error c))
      ∧ ∀ (w1 w2 : PyVal) (u1 u2 : List PyScalar),
          pyIterE w1 = .ok u1 → pyIterE w2 = .ok u2 → pySetEqB u1 u2 = false →
          ∃ m, verify_same_elements [("one", w1), ("two", w2)] =
            .error (.valueError m none)) :=
  ⟨Or.inl ⟨PyBase.typeError "'int' object is not iterable", rfl⟩,
    verify_same_elements_conversion_usage_error "one" "two"
      (.scalar (.pyInt 1)) (.scalar (.pyInt 2))
      (Or.inl ⟨PyBase.typeError "'int' object is not iterable", rfl⟩)⟩

/-- Claim C8: whenever `verify_same_elements` fails the set check, the
message is the header followed by the A−B section and then the B−A
section, each consisting of its count line and its formatted block; an
empty direction still contributes its count line, with the formatter
yielding the empty block. -/
theorem verify_same_elements_both_directions (n1 n2 : String) (v1 v2 : PyVal)
    (l1 l2 : List PyScalar)
    (h1 : pyIterE v1 = .ok l1) (h2 : pyIterE v2 = .ok l2)
    (hne : pySetEqB l1 l2 = false) :
    verify_same_elements [(n1, v1), (n2, v2)] =
      .error (.valueError
        (toString ((pySymmDiff l1 l2).map pyStrOf).length ++ " value(s) provided for list "
          ++ displayName n1 ++ " and list " ++ displayName n2
          ++ " are not found in both lists.\n"
          ++ missingSection (min ((pySetDiff l1 l2).map pyStrOf).length 10)
              ((pySetDiff l2 l1).map pyStrOf).length (displayName n1)
              ((pySetDiff l1 l2).map pyStrOf)
          ++ missingSection (min ((pySetDiff l2 l1).map pyStrOf).length 10)
              ((pySetDiff l2 l1).map pyStrOf).length (displayName n2)
              ((pySetDiff l2 l1).map pyStrOf))
        none)
    ∧ ∀ (shown total : Nat) (name : String),
        missingSection shown total name [] =
          padLeftTo ("Displaying " ++ toString shown ++ " of " ++ toString total
              ++ " missing value(s) for list " ++ name ++ "\n") 13 ++ " \n" ++ "\n" := by
  constructor
  · simp [verify_same_elements, h1, h2, hne]
  · intro shown total name
    simp only [missingSection, create_invalid_data_str, List.take_nil, List.enumFrom_nil,
      List.foldl_nil, String.append_empty]

/-- Claim C8 witness at `one = ["a"]`, `two = ["a", "b"]`, where the A−B
direction is empty yet its section (count line plus empty block) is still
present. -/
theorem verify_same_elements_both_directions_witness :
    pyIterE (.pyList [.pyStr "a"]) = .ok [PyScalar.pyStr "a"]
    ∧ pyIterE (.pyList [.pyStr "a", .pyStr "b"]) = .ok [PyScalar.pyStr "a", PyScalar.pyStr "b"]
    ∧ pySetEqB [PyScalar.pyStr "a"] [PyScalar.pyStr "a", PyScalar.pyStr "b"] = false
    ∧ (verify_same_elements [("one", .pyList [.pyStr "a"]), ("two", .pyList [.pyStr "a", .pyStr "b"])] =
        .error (.valueError
          (toString ((pySymmDiff [PyScalar.pyStr "a"] [PyScalar.pyStr "a", PyScalar.pyStr "b"]).map pyStrOf).length
            ++ " value(s) provided for list "
            ++ displayName "one" ++ " and list " ++ displayName "two"
            ++ " are not found in both lists.\n"
            ++ missingSection
                (min ((pySetDiff [PyScalar.pyStr "a"] [PyScalar.pyStr "a", PyScalar.pyStr "b"]).map pyStrOf).length 10)
                ((pySetDiff [PyScalar.pyStr "a", PyScalar.pyStr "b"] [PyScalar.pyStr "a"]).map pyStrOf).length
                (displayName "one")
                ((pySetDiff [PyScalar.pyStr "a"] [PyScalar.pyStr "a", PyScalar.pyStr "b"]).map pyStrOf)
            ++ missingSection
                (min ((pySetDiff [PyScalar.pyStr "a", PyScalar.pyStr "b"] [PyScalar.pyStr "a"]).map pyStrOf).length 10)
                ((pySetDiff [PyScalar.pyStr "a", PyScalar.pyStr "b"] [PyScalar.pyStr "a"]).map pyStrOf).length
                (displayName "two")
                ((pySetDiff [PyScalar.pyStr "a", PyScalar.pyStr "b"] [PyScalar.pyStr "a"]).map pyStrOf))
          none)
      ∧ ∀ (shown total : Nat) (name : String),
          missingSection shown total name [] =
            padLeftTo ("Displaying " ++ toString shown ++ " of " ++ toString total
                ++ " missing value(s) for list " ++ name ++ "\n") 13 ++ " \n" ++ "\n") :=
  ⟨rfl, rfl, by decide,
    verify_same_elements_both_directions "one" "two"
      (.pyList [.pyStr "a"]) (.pyList [.pyStr "a", .pyStr "b"])
      [PyScalar.pyStr "a"] [PyScalar.pyStr "a", PyScalar.pyStr "b"]
      rfl rfl (by decide)⟩

/-- Claim C10: with a bare string as the failing candidate, the membership
decision treats the string as a single element (`np.isin`), but the
offending-value list iterates the string's characters: the reported
total is the number of characters not found in the reference and the
displayed entries are individual characters. -/
theorem verify_in_list_string_candidate_chars (tn gn : String) (s : String)
    (ys : List PyScalar) (h : PyScalar.pyStr s ∉ ys) :
    verify_in_list [(tn, .scalar (.pyStr s)), (gn, .pyList ys)] =
      .error (.valueError
        ("Displaying "
          ++ toString (min (((stringChars s).filter (fun v => !decide (v ∈ ys))).map pyStrOf).length 10)
          ++ " of "
          ++ toString (((stringChars s).filter (fun v => !decide (v ∈ ys))).map pyStrOf).length
          ++ " invalid value(s) provided for list " ++ displayName tn ++ ".\n"
          ++ create_invalid_data_str (((stringChars s).filter (fun v => !decide (v ∈ ys))).map pyStrOf))
        none)
    ∧ npIsinAll (.scalar (.pyStr s)) (.pyList ys) = decide (PyScalar.pyStr s ∈ ys) := by
  have hdec : npIsinAll (.scalar (.pyStr s)) (.pyList ys) = decide (PyScalar.pyStr s ∈ ys) := by
    simp [npIsinAll, npAtleast1d]
  have hall : npIsinAll (.scalar (.pyStr s)) (.pyList ys) = false := by
    rw [hdec]; simpa using h
  refine ⟨?_, hdec⟩
  have hiter : pyIterE (.scalar (.pyStr s)) = .ok (stringChars s) := rfl
  simp only [verify_in_list, hall, Bool.false_eq_true, if_false, hiter, filterExcept_pyList]

/-- Claim C10 witness at candidate string `"hello"` and reference
`["x"]`: five offending characters are reported. -/
theorem verify_in_list_string_candidate_chars_witness :
    PyScalar.pyStr "hello" ∉ [PyScalar.pyStr "x"]
    ∧ (verify_in_list [("one", .scalar (.pyStr "hello")), ("two", .pyList [.pyStr "x"])] =
        .error (.valueError
          ("Displaying "
            ++ toString (min (((stringChars "hello").filter
                (fun v => !decide (v ∈ [PyScalar.pyStr "x"]))).map pyStrOf).length 10)
            ++ " of "
            ++ toString (((stringChars "hello").filter
                (fun v => !decide (v ∈ [PyScalar.pyStr "x"]))).map pyStrOf).length
            ++ " invalid value(s) provided for list " ++ displayName "one" ++ ".\n"
            ++ create_invalid_data_str (((stringChars "hello").filter
                (fun v => !decide (v ∈ [PyScalar.pyStr "x"]))).map pyStrOf))
          none)
      ∧ npIsinAll (.scalar (.pyStr "hello")) (.pyList [.pyStr "x"]) =
          decide (PyScalar.pyStr "hello" ∈ [PyScalar.pyStr "x"])) :=
  ⟨by decide,
    verify_in_list_string_candidate_chars "one" "two" "hello" [PyScalar.pyStr "x"] (by decide)⟩

/-- Claim C9 (amended): `save_figure` raises exactly when the target
directory does not exist or the file name is missing (`None`); whenever
the directory exists and a file name is supplied — even the empty string —
it writes the image to the joined path. -/
theorem save_figure_ok_iff (ex : String → Bool) (d : String) (f : Option String) :
    (∃ p, save_figure ex d f = .ok p) ↔ (ex d = true ∧ f ≠ none) := by
  cases hex : ex d <;> cases f <;> simp [save_figure, hex]

end tmi
